import Mathlib

/-!
# Entitlement accounting of `app.py`

A shallow embedding of the usage-accounting and entitlement-gating logic of
the repository's single source file `app.py`: the persisted record set
(`usage.json`), the persistence helpers (`load_data`, `save_data`,
`get_user_record`, `increment_usage`), the Stripe checkout helper
(`_create_stripe_session`), the webhook handler (`stripe_webhook`) and the
entitlement-relevant slice of the `upload` route.

Modelling conventions:
* A Python dict persisted as JSON becomes an association list with unique
  keys in insertion order (`Store`); `dict.setdefault` appends at the end
  when the key is absent.
* A user record is a dict that may or may not contain each of the keys
  `used`, `subscribed` and `stripe_customer_id`, so each field is an
  `Option`; a `rec[k]` access on an absent key is a `KeyError`, modelled
  with `Except`.
* Disk state is threaded explicitly: `load_data` reads it, `save_data`
  replaces it wholesale.  Python code that mutates a loaded dict without
  passing that same dict to `save_data` leaves the disk unchanged.
* The two external collaborators (Stripe customer creation and checkout
  session creation) are modelled by their responses, passed in as
  parameters (`newCustomerId`, `sessionUrl`): `app.py` only forwards them.
-/

/-- One user record of `usage.json`.  Every field is optional because a
record is a JSON object that may lack any of the keys: `get_user_record`'s
default has `used` and `subscribed` but no `stripe_customer_id`, while the
record `_create_stripe_session` creates for an unseen user starts as the
empty object `\x7b\x7d`. -/
structure UserRecord where
  used : Option Nat
  subscribed : Option Bool
  stripe_customer_id : Option String
deriving DecidableEq, Repr

/-- The persisted record set of `usage.json`: user identity to record, in
insertion order. -/
abbrev Store := List (String × UserRecord)

/-- Dict lookup `data[k]` / `data.get(k)`: first (unique) binding wins. -/
def findRecord : Store → String → Option UserRecord
  | [], _ => none
  | (k, v) :: rest, uid => if k = uid then some v else findRecord rest uid

/-- Dict update `data[k] = r` on a key already present (replace in place),
appending at the end when absent. -/
def setRecord : Store → String → UserRecord → Store
  | [], uid, r => [(uid, r)]
  | (k, v) :: rest, uid, r =>
      if k = uid then (k, r) :: rest else (k, v) :: setRecord rest uid r

/-- `load_data()` (app.py lines 46-50): parse the whole file; the disk
state is the store itself. -/
def load_data (disk : Store) : Store := disk

/-- `save_data(data)` (app.py lines 52-54): rewrite the whole file with
`data`; the previous disk content is discarded. -/
def save_data (_disk : Store) (data : Store) : Store := data

/-- The `setdefault` default of `get_user_record` (app.py lines 58-62):
`used = 0`, `subscribed = False`, and no `stripe_customer_id` key. -/
def defaultRecord : UserRecord :=
  { used := some 0, subscribed := some false, stripe_customer_id := none }

/-- `get_user_record(user_id)` (app.py lines 56-62): load the data and
`setdefault` the user's record.  The `setdefault` insertion mutates only
the freshly loaded in-memory dict, which is never saved, so with respect
to the disk this helper is a pure read. -/
def get_user_record (disk : Store) (user_id : String) : UserRecord :=
  (findRecord (load_data disk) user_id).getD defaultRecord

/-- `FREE_LIMIT` (app.py line 39). -/
def FREE_LIMIT : Nat := 3

/-- `increment_usage(user_id, amount)` (app.py lines 64-67):
`rec = get_user_record(user_id)` then `rec["used"] += amount` — a
`KeyError` when the stored record has no `used` key — and finally
`save_data(load_data())`.  The incremented record lives in the dict that
`get_user_record` loaded and dropped; what is persisted is a fresh
`load_data()` of the disk, so the new disk equals the old one. -/
def increment_usage (disk : Store) (user_id : String) (amount : Nat) :
    Except String Store :=
  let r0 := get_user_record disk user_id
  match r0.used with
  | none => Except.error "KeyError: used"
  | some u =>
      let _updated : UserRecord := { r0 with used := some (u + amount) }
      Except.ok (save_data disk (load_data disk))

/-- The empty dict `\x7b\x7d` that `data.setdefault(user_id, \x7b\x7d)`
inserts in `_create_stripe_session`. -/
def emptyRecord : UserRecord :=
  { used := none, subscribed := none, stripe_customer_id := none }

/-- `_create_stripe_session(user_id)` (app.py lines 75-94).
`newCustomerId` is the id the external `stripe.Customer.create` call
returns and `sessionUrl` the url of the session the external
`stripe.checkout.Session.create` call returns.  Result: the new disk, the
customer id the session is bound to, and the session url.  When the loaded
record already holds a `stripe_customer_id` nothing is saved; otherwise
the id is written into the record and the whole data dict persisted. -/
def create_stripe_session (newCustomerId sessionUrl : String)
    (disk : Store) (user_id : String) : Store × String × String :=
  let data := load_data disk
  let data1 := match findRecord data user_id with
               | some _ => data
               | none => data ++ [(user_id, emptyRecord)]
  let r0 := (findRecord data1 user_id).getD emptyRecord
  match r0.stripe_customer_id with
  | some cid => (disk, cid, sessionUrl)
  | none =>
      let data2 := setRecord data1 user_id
        { r0 with stripe_customer_id := some newCustomerId }
      (save_data disk data2, newCustomerId, sessionUrl)

/-- Outcome of the webhook route: 400 on a bad signature, 200 otherwise. -/
inductive WebhookResult where
  | badSignature
  | ok
deriving DecidableEq, Repr

/-- The loop of `stripe_webhook` (app.py lines 143-146): walk the records
in insertion order; on the first whose `stripe_customer_id` equals the
event's customer, set `subscribed = True` and `break`. -/
def markFirstMatch : Store → String → Store
  | [], _ => []
  | (uid, r) :: rest, cust =>
      if r.stripe_customer_id = some cust then
        (uid, { r with subscribed := some true }) :: rest
      else
        (uid, r) :: markFirstMatch rest cust

/-- `stripe_webhook()` (app.py lines 127-149).  `signatureValid` models
whether `stripe.Webhook.construct_event` accepts the payload signature;
`eventType` and `customer` are the event's fields.  Only a
`checkout.session.completed` event loads the data, marks the first
matching record subscribed and saves; every other valid event is answered
200 with no disk access. -/
def stripe_webhook (signatureValid : Bool) (eventType customer : String)
    (disk : Store) : WebhookResult × Store :=
  if signatureValid then
    if eventType = "checkout.session.completed" then
      (WebhookResult.ok, save_data disk (markFirstMatch (load_data disk) customer))
    else
      (WebhookResult.ok, disk)
  else
    (WebhookResult.badSignature, disk)

/-- Outcome of the entitlement gate at the top of `upload`
(app.py lines 158-165). -/
inductive GateResult where
  | allowed
  | quotaExceeded (checkout_url : String)
  | keyError (key : String)
deriving DecidableEq, Repr

/-- The entitlement gate of `upload` (app.py lines 158-165), the
`checkAndConsume` contract of the specification: read the record, and when
`rec["used"] >= FREE_LIMIT and not rec["subscribed"]` create a checkout
session and answer 402 with its url; otherwise fall through to the work.
Python's `and` short-circuits, so `rec["subscribed"]` is only read when
`rec["used"] >= FREE_LIMIT`; each `rec[k]` on an absent key is a
`KeyError`. -/
def checkAndConsume (newCustomerId sessionUrl : String)
    (disk : Store) (user_id : String) : GateResult × Store :=
  let r0 := get_user_record disk user_id
  match r0.used with
  | none => (GateResult.keyError "used", disk)
  | some u =>
      if FREE_LIMIT ≤ u then
        match r0.subscribed with
        | none => (GateResult.keyError "subscribed", disk)
        | some s =>
            if s then
              (GateResult.allowed, disk)
            else
              let res := create_stripe_session newCustomerId sessionUrl disk user_id
              (GateResult.quotaExceeded res.2.2, res.1)
      else
        (GateResult.allowed, disk)

/-- HTTP outcome of the `upload` route, restricted to what the entitlement
logic distinguishes. -/
inductive UploadResponse where
  | missingUserId
  | keyError (key : String)
  | paymentRequired (checkout_url : String)
  | invalidFile
  | noOutput
  | success
deriving DecidableEq, Repr

/-- The `upload` route (app.py lines 152-215), entitlement-relevant slice.
`fileValid` models the `.zip` validation, `refactorCount` the number of
files the external refactoring call produced output for.  A missing
`User-ID` header is rejected before any record is read; after the gate the
work runs and, on success, `increment_usage` records the count. -/
def upload (newCustomerId sessionUrl : String) (fileValid : Bool)
    (refactorCount : Nat) (disk : Store) (user_id : Option String) :
    UploadResponse × Store :=
  match user_id with
  | none => (UploadResponse.missingUserId, disk)
  | some uid =>
      match checkAndConsume newCustomerId sessionUrl disk uid with
      | (GateResult.keyError k, d1) => (UploadResponse.keyError k, d1)
      | (GateResult.quotaExceeded url, d1) => (UploadResponse.paymentRequired url, d1)
      | (GateResult.allowed, d1) =>
          if fileValid then
            if refactorCount = 0 then
              (UploadResponse.noOutput, d1)
            else
              match increment_usage d1 uid refactorCount with
              | Except.error k => (UploadResponse.keyError k, d1)
              | Except.ok d2 => (UploadResponse.success, d2)
          else
            (UploadResponse.invalidFile, d1)

/-! ## Helper lemmas about the store operations -/

theorem findRecord_setRecord_self (s : Store) (k : String) (r : UserRecord) :
    findRecord (setRecord s k r) k = some r := by
  induction s with
  | nil => simp [setRecord, findRecord]
  | cons p rest ih =>
      obtain ⟨a, b⟩ := p
      by_cases hak : a = k
      · simp [setRecord, findRecord, hak]
      · simp [setRecord, findRecord, hak, ih]

theorem findRecord_setRecord_ne (s : Store) (k k2 : String) (r : UserRecord)
    (h : k2 ≠ k) : findRecord (setRecord s k r) k2 = findRecord s k2 := by
  induction s with
  | nil => simp [setRecord, findRecord, Ne.symm h]
  | cons p rest ih =>
      obtain ⟨a, b⟩ := p
      by_cases hak : a = k
      · subst hak
        simp [setRecord, findRecord, Ne.symm h]
      · simp [setRecord, findRecord, hak, ih]

theorem findRecord_append_self (s : Store) (k : String) (r : UserRecord)
    (h : findRecord s k = none) : findRecord (s ++ [(k, r)]) k = some r := by
  induction s with
  | nil => simp [findRecord]
  | cons p rest ih =>
      obtain ⟨a, b⟩ := p
      by_cases hak : a = k
      · simp [findRecord, hak] at h
      · simp [findRecord, hak] at h ⊢
        exact ih h

theorem findRecord_append_ne (s : Store) (k k2 : String) (r : UserRecord)
    (h : k2 ≠ k) : findRecord (s ++ [(k, r)]) k2 = findRecord s k2 := by
  induction s with
  | nil => simp [findRecord, Ne.symm h]
  | cons p rest ih =>
      obtain ⟨a, b⟩ := p
      by_cases hak : a = k2 <;> simp [findRecord, hak, ih]

/-- Whenever `increment_usage` completes without a `KeyError`, the disk it
leaves behind is exactly the disk it started from: the increment is never
persisted, because line 67 saves a fresh `load_data()`. -/
theorem increment_usage_ok_eq (disk d2 : Store) (uid : String) (n : Nat)
    (h : increment_usage disk uid n = Except.ok d2) : d2 = disk := by
  unfold increment_usage at h
  cases hu : (get_user_record disk uid).used with
  | none => simp [hu] at h
  | some u =>
      simp [hu, save_data, load_data] at h
      exact h.symm

/-- What `_create_stripe_session` leaves on disk, key by key: the target
user's record gains a `stripe_customer_id` when it had none (starting from
the empty object when the user was unseen), and every other key is
untouched. -/
theorem create_session_find (a b : String) (disk : Store) (u k : String) :
    findRecord (create_stripe_session a b disk u).1 k
      = if k = u then
          some (match findRecord disk u with
                | none => { used := none, subscribed := none,
                            stripe_customer_id := some a }
                | some r =>
                    match r.stripe_customer_id with
                    | none => { r with stripe_customer_id := some a }
                    | some _ => r)
        else findRecord disk k := by
  cases hf : findRecord disk u with
  | none =>
      have h1 : findRecord
          (disk ++ [(u, ({ used := none, subscribed := none,
                           stripe_customer_id := none } : UserRecord))]) u
          = some { used := none, subscribed := none, stripe_customer_id := none } :=
        findRecord_append_self disk u _ hf
      by_cases hk : k = u
      · subst hk
        simp [create_stripe_session, load_data, save_data, emptyRecord, hf, h1,
              findRecord_setRecord_self]
      · simp [create_stripe_session, load_data, save_data, emptyRecord, hf, h1, hk,
              findRecord_setRecord_ne _ _ _ _ hk, findRecord_append_ne _ _ _ _ hk]
  | some r =>
      cases hc : r.stripe_customer_id with
      | some cid =>
          by_cases hk : k = u
          · subst hk
            simp [create_stripe_session, load_data, save_data, hf, hc]
          · simp [create_stripe_session, load_data, save_data, hf, hc, hk]
      | none =>
          by_cases hk : k = u
          · subst hk
            simp [create_stripe_session, load_data, save_data, hf, hc,
                  findRecord_setRecord_self]
          · simp [create_stripe_session, load_data, save_data, hf, hc, hk,
                  findRecord_setRecord_ne _ _ _ _ hk]

/-- The url `_create_stripe_session` returns is the one the external
checkout-session call produced, on both branches. -/
theorem create_session_url (a b : String) (disk : Store) (u : String) :
    (create_stripe_session a b disk u).2.2 = b := by
  cases hf : findRecord disk u with
  | none =>
      have h1 : findRecord
          (disk ++ [(u, ({ used := none, subscribed := none,
                           stripe_customer_id := none } : UserRecord))]) u
          = some { used := none, subscribed := none, stripe_customer_id := none } :=
        findRecord_append_self disk u _ hf
      simp [create_stripe_session, load_data, save_data, emptyRecord, hf, h1]
  | some r =>
      cases hc : r.stripe_customer_id <;>
        simp [create_stripe_session, load_data, save_data, hf, hc]

/-- The disk after the entitlement gate is either the disk before, or the
disk `_create_stripe_session` leaves behind (quota-exceeded path). -/
theorem gate_store_cases (a b : String) (disk : Store) (u : String) :
    (checkAndConsume a b disk u).2 = disk ∨
    (checkAndConsume a b disk u).2 = (create_stripe_session a b disk u).1 := by
  unfold checkAndConsume
  cases hu : (get_user_record disk u).used with
  | none => simp [hu]
  | some n =>
      by_cases hl : FREE_LIMIT ≤ n
      · cases hs : (get_user_record disk u).subscribed with
        | none => simp [hu, hs, hl]
        | some s => cases s <;> simp [hu, hs, hl]
      · simp [hu, hl]

/-- When the gate answers `allowed` it has not touched the disk. -/
theorem gate_allowed_store (a b : String) (disk : Store) (u : String)
    (h : (checkAndConsume a b disk u).1 = GateResult.allowed) :
    (checkAndConsume a b disk u).2 = disk := by
  unfold checkAndConsume at h ⊢
  cases hu : (get_user_record disk u).used with
  | none => simp [hu] at h
  | some n =>
      by_cases hl : FREE_LIMIT ≤ n
      · cases hs : (get_user_record disk u).subscribed with
        | none => simp [hu, hs, hl] at h
        | some s =>
            cases s with
            | true => simp [hu, hs, hl]
            | false => simp [hu, hs, hl] at h
      · simp [hu, hl]

/-- A store whose matching-record filter is empty has no record bound to
the event's customer. -/
theorem no_match_of_filter_length_zero (cust : String) (s : Store)
    (h : (s.filter fun p => decide (p.2.stripe_customer_id = some cust)).length = 0) :
    ∀ p ∈ s, p.2.stripe_customer_id ≠ some cust := by
  induction s with
  | nil => intro p hp; cases hp
  | cons q rest ih =>
      intro p hp
      by_cases hm : q.2.stripe_customer_id = some cust
      · simp [List.filter_cons, hm] at h
      · rcases List.mem_cons.mp hp with hq | hp2
        · subst hq; exact hm
        · refine ih ?_ p hp2
          simpa [List.filter_cons, hm] using h

/-- The webhook loop leaves a store without a matching record verbatim. -/
theorem markFirstMatch_of_no_match (cust : String) (s : Store)
    (h : ∀ p ∈ s, p.2.stripe_customer_id ≠ some cust) :
    markFirstMatch s cust = s := by
  induction s with
  | nil => rfl
  | cons q rest ih =>
      obtain ⟨a, r0⟩ := q
      have hm : r0.stripe_customer_id ≠ some cust := h (a, r0) (List.mem_cons_self _ _)
      simp only [markFirstMatch, if_neg hm, List.cons.injEq, true_and]
      exact ih fun p hp => h p (List.mem_cons_of_mem _ hp)

/-- Marking every matching record of a store without a matching record is
also the identity. -/
theorem map_mark_of_no_match (cust : String) (s : Store)
    (h : ∀ p ∈ s, p.2.stripe_customer_id ≠ some cust) :
    s.map (fun p => if p.2.stripe_customer_id = some cust
                    then (p.1, { p.2 with subscribed := some true }) else p) = s := by
  induction s with
  | nil => rfl
  | cons q rest ih =>
      have hm : q.2.stripe_customer_id ≠ some cust := h q (List.mem_cons_self _ _)
      simp only [List.map_cons, if_neg hm, List.cons.injEq, true_and]
      exact ih fun p hp => h p (List.mem_cons_of_mem _ hp)

/-- When exactly one record matches, marking the first match equals
marking every match: the loop's `break` loses nothing. -/
theorem markFirstMatch_eq_map_of_unique (cust : String) (s : Store)
    (h : (s.filter fun p => decide (p.2.stripe_customer_id = some cust)).length = 1) :
    markFirstMatch s cust
      = s.map (fun p => if p.2.stripe_customer_id = some cust
                        then (p.1, { p.2 with subscribed := some true }) else p) := by
  induction s with
  | nil => simp [List.filter_nil] at h
  | cons q rest ih =>
      obtain ⟨a, r0⟩ := q
      by_cases hm : r0.stripe_customer_id = some cust
      · have h0 : (rest.filter fun p =>
            decide (p.2.stripe_customer_id = some cust)).length = 0 := by
          simpa [List.filter_cons, hm] using h
        have hrest : rest.map (fun p => if p.2.stripe_customer_id = some cust
            then (p.1, { p.2 with subscribed := some true }) else p) = rest :=
          map_mark_of_no_match cust rest (no_match_of_filter_length_zero cust rest h0)
        simp [markFirstMatch, hm, List.map_cons, hrest]
      · have h1 : (rest.filter fun p =>
            decide (p.2.stripe_customer_id = some cust)).length = 1 := by
          simpa [List.filter_cons, hm] using h
        simp [markFirstMatch, hm, List.map_cons, ih h1]

/-! ## Claim theorems -/

/-- C9: an upload request carrying no `User-ID` header is rejected
immediately with an error, before any record is read or created, and the
persisted record set is unchanged. -/
theorem c9_missing_user_id (newCustomerId sessionUrl : String)
    (fileValid : Bool) (refactorCount : Nat) (disk : Store) :
    upload newCustomerId sessionUrl fileValid refactorCount disk none
      = (UploadResponse.missingUserId, disk) := rfl

/-- C1 (code bug): `increment_usage(u, n)` never persists the increment.
Whenever it completes, the disk afterwards equals the disk before (the
only other possibility is a `KeyError` on a record without a `used` key),
so a subsequent read cannot show `used` increased by `n` for `n > 0`.  At
the concrete failing input (empty store, user `a@x.com`, `n = 1`) the call
succeeds, the store stays empty, and the read-back record still shows
`used = 0`. -/
theorem c1_recordUsage_never_persists_increment :
    (∀ (disk : Store) (uid : String) (n : Nat),
        increment_usage disk uid n = Except.ok disk ∨
        increment_usage disk uid n = Except.error "KeyError: used") ∧
    increment_usage [] "a@x.com" 1 = Except.ok ([] : Store) ∧
    (get_user_record [] "a@x.com").used = some 0 := by
  refine ⟨?_, rfl, rfl⟩
  intro disk uid n
  unfold increment_usage
  cases hu : (get_user_record disk uid).used with
  | none => exact Or.inr (by simp [hu])
  | some u => exact Or.inl (by simp [hu, save_data, load_data])

/-- C2: with the record state read before the request, the gate answers
`quotaExceeded` carrying a non-empty checkout url exactly when
`used >= FREE_LIMIT` and `subscribed` is false, and `allowed` in every
other case (`used < FREE_LIMIT`, or `subscribed` true regardless of
`used`).  The url carried is the one the external checkout-session call
returned, assumed non-empty. -/
theorem c2_gate_decision (newCustomerId sessionUrl : String)
    (disk : Store) (uid : String) (u : Nat) (s : Bool)
    (hu : (get_user_record disk uid).used = some u)
    (hs : (get_user_record disk uid).subscribed = some s)
    (hurl : sessionUrl ≠ "") :
    (FREE_LIMIT ≤ u ∧ s = false →
        ∃ curl, (checkAndConsume newCustomerId sessionUrl disk uid).1
            = GateResult.quotaExceeded curl ∧ curl ≠ "") ∧
    (u < FREE_LIMIT ∨ s = true →
        (checkAndConsume newCustomerId sessionUrl disk uid).1
          = GateResult.allowed) := by
  constructor
  · rintro ⟨hl, rfl⟩
    refine ⟨sessionUrl, ?_, hurl⟩
    simp [checkAndConsume, hu, hs, hl, create_session_url]
  · rintro (hlt | rfl)
    · simp [checkAndConsume, hu, Nat.not_le.mpr hlt]
    · simp [checkAndConsume, hu, hs]

/-- Witness for C2 at a concrete subscribed-free user over the limit. -/
theorem c2_witness :
    (FREE_LIMIT ≤ 3 ∧ false = false →
        ∃ curl, (checkAndConsume "cus_1" "https://pay.example"
            [("u@x.com", { used := some 3, subscribed := some false,
                           stripe_customer_id := some "cus_1" })] "u@x.com").1
            = GateResult.quotaExceeded curl ∧ curl ≠ "") ∧
    (3 < FREE_LIMIT ∨ false = true →
        (checkAndConsume "cus_1" "https://pay.example"
            [("u@x.com", { used := some 3, subscribed := some false,
                           stripe_customer_id := some "cus_1" })] "u@x.com").1
          = GateResult.allowed) :=
  c2_gate_decision "cus_1" "https://pay.example"
    [("u@x.com", { used := some 3, subscribed := some false,
                   stripe_customer_id := some "cus_1" })] "u@x.com" 3 false
    rfl rfl (by decide)

/-- C3 (code bug): in the spec scenario for user `a@x.com` starting from
no record, each gate check answers `allowed` and each `increment_usage`
leaves the store exactly empty (the increment is not persisted, app.py
line 67), so after three cycles the recorded usage reads 0 where the
claim expects 3, and the fourth gate check still answers `allowed` where
the claim expects the quota to be exceeded. -/
theorem c3_scenario_diverges :
    checkAndConsume "cus_a" "https://pay.example" [] "a@x.com"
      = (GateResult.allowed, []) ∧
    increment_usage [] "a@x.com" 1 = Except.ok ([] : Store) ∧
    (get_user_record [] "a@x.com").used = some 0 ∧
    (checkAndConsume "cus_a" "https://pay.example" [] "a@x.com").1
      = GateResult.allowed := ⟨rfl, rfl, rfl, rfl⟩

/-- C7: a `checkout.session.completed` event whose customer matches
exactly one stored record answers 200 and persists the store in which
that record's `subscribed` is true and everything else — the other
records, and the matched record's other fields — is unchanged. -/
theorem c7_webhook_exact_match (cust : String) (disk : Store)
    (h : (disk.filter fun p =>
        decide (p.2.stripe_customer_id = some cust)).length = 1) :
    stripe_webhook true "checkout.session.completed" cust disk
      = (WebhookResult.ok,
         disk.map (fun p => if p.2.stripe_customer_id = some cust
                            then (p.1, { p.2 with subscribed := some true })
                            else p)) := by
  simp [stripe_webhook, save_data, load_data,
        markFirstMatch_eq_map_of_unique cust disk h]

/-- Witness for C7 at a two-record store whose second record matches. -/
theorem c7_witness :
    stripe_webhook true "checkout.session.completed" "cus_2"
      [("a@x.com", { used := some 1, subscribed := some false,
                     stripe_customer_id := some "cus_1" }),
       ("b@x.com", { used := some 3, subscribed := some false,
                     stripe_customer_id := some "cus_2" })]
      = (WebhookResult.ok,
         [("a@x.com", { used := some 1, subscribed := some false,
                        stripe_customer_id := some "cus_1" }),
          ("b@x.com", { used := some 3, subscribed := some true,
                        stripe_customer_id := some "cus_2" })]) := by
  have h := c7_webhook_exact_match "cus_2"
    [("a@x.com", { used := some 1, subscribed := some false,
                   stripe_customer_id := some "cus_1" }),
     ("b@x.com", { used := some 3, subscribed := some false,
                   stripe_customer_id := some "cus_2" })] (by decide)
  simpa using h

/-- C8: a `checkout.session.completed` event whose customer matches no
stored record answers 200 and leaves the persisted record set unchanged:
the loop falls through and `save_data` rewrites the data it loaded. -/
theorem c8_webhook_no_match (cust : String) (disk : Store)
    (h : (disk.filter fun p =>
        decide (p.2.stripe_customer_id = some cust)).length = 0) :
    stripe_webhook true "checkout.session.completed" cust disk
      = (WebhookResult.ok, disk) := by
  simp [stripe_webhook, save_data, load_data,
        markFirstMatch_of_no_match cust disk
          (no_match_of_filter_length_zero cust disk h)]

/-- Witness for C8 at a store holding one non-matching record. -/
theorem c8_witness :
    stripe_webhook true "checkout.session.completed" "cus_9"
      [("a@x.com", { used := some 1, subscribed := some false,
                     stripe_customer_id := some "cus_1" })]
      = (WebhookResult.ok,
         [("a@x.com", { used := some 1, subscribed := some false,
                        stripe_customer_id := some "cus_1" })]) :=
  c8_webhook_no_match "cus_9"
    [("a@x.com", { used := some 1, subscribed := some false,
                   stripe_customer_id := some "cus_1" })] (by decide)

/-- C10: a record first persisted by `_create_stripe_session` for an
unseen user holds only the `stripe_customer_id` key, so a later
entitlement check's `rec["used"]` access is a `KeyError` rather than a
read of a default 0. -/
theorem c10_checkout_then_gate_key_error
    (cid1 url1 cid2 url2 : String) (disk : Store) (uid : String)
    (h : findRecord disk uid = none) :
    (checkAndConsume cid2 url2 (create_stripe_session cid1 url1 disk uid).1 uid).1
      = GateResult.keyError "used" := by
  have hf : findRecord (create_stripe_session cid1 url1 disk uid).1 uid
      = some { used := none, subscribed := none,
               stripe_customer_id := some cid1 } := by
    rw [create_session_find]
    simp [h]
  simp [checkAndConsume, get_user_record, load_data, hf]

/-- Witness for C10 at an empty store and user `a@x.com`. -/
theorem c10_witness :
    (checkAndConsume "cus_2" "https://u2.example"
        (create_stripe_session "cus_1" "https://u1.example" [] "a@x.com").1
        "a@x.com").1
      = GateResult.keyError "used" :=
  c10_checkout_then_gate_key_error "cus_1" "https://u1.example"
    "cus_2" "https://u2.example" [] "a@x.com" rfl

/-- An entitlement check for an identity with no stored record answers
`allowed` (its in-memory default has `used = 0`) and leaves the disk
unchanged: the `setdefault` insertion of `get_user_record` is never
saved. -/
theorem gate_unseen (a b : String) (disk : Store) (u : String)
    (h : findRecord disk u = none) :
    checkAndConsume a b disk u = (GateResult.allowed, disk) := by
  simp [checkAndConsume, get_user_record, load_data, h, defaultRecord, FREE_LIMIT]

/-- The gate preserves every record's `used` and `subscribed` fields: the
only write it can perform is `_create_stripe_session`'s assignment of a
customer id to the (necessarily present) over-quota record. -/
theorem gate_find_view (a b : String) (disk : Store) (u k : String) :
    (findRecord (checkAndConsume a b disk u).2 k).map
        (fun r => (r.used, r.subscribed))
      = (findRecord disk k).map (fun r => (r.used, r.subscribed)) := by
  unfold checkAndConsume
  cases hu : (get_user_record disk u).used with
  | none => simp [hu]
  | some n =>
      by_cases hl : FREE_LIMIT ≤ n
      · cases hs : (get_user_record disk u).subscribed with
        | none => simp [hu, hs, hl]
        | some s =>
            cases s with
            | true => simp [hu, hs, hl]
            | false =>
                cases hf : findRecord disk u with
                | none =>
                    exfalso
                    rw [get_user_record, load_data, hf] at hu
                    simp [defaultRecord] at hu
                    unfold FREE_LIMIT at hl
                    omega
                | some r0 =>
                    simp only [hu, hs, hl, if_true, if_false, Bool.false_eq_true,
                               ite_true, ite_false]
                    rw [create_session_find]
                    by_cases hk : k = u
                    · subst hk
                      simp only [hf, if_pos rfl]
                      cases hc : r0.stripe_customer_id <;> simp [hc]
                    · simp [hk]
      · simp [hu, hl]

/-- The webhook loop changes a record, if at all, only by setting its
`subscribed` field: looked up key by key, the store it leaves behind
holds either the old record or the old record marked subscribed. -/
theorem markFirstMatch_find (cust : String) (s : Store) (k : String) :
    findRecord (markFirstMatch s cust) k = findRecord s k ∨
    ∃ r, findRecord s k = some r ∧
         findRecord (markFirstMatch s cust) k
           = some { r with subscribed := some true } := by
  induction s with
  | nil => exact Or.inl rfl
  | cons q rest ih =>
      obtain ⟨a, r0⟩ := q
      by_cases hm : r0.stripe_customer_id = some cust
      · by_cases hak : a = k
        · subst hak
          exact Or.inr ⟨r0, by simp [findRecord], by simp [markFirstMatch, hm, findRecord]⟩
        · left
          simp [markFirstMatch, hm, findRecord, hak]
      · by_cases hak : a = k
        · subst hak
          left
          simp [markFirstMatch, hm, findRecord]
        · rcases ih with h | ⟨r, h1, h2⟩
          · left
            simp [markFirstMatch, hm, findRecord, hak, h]
          · right
            exact ⟨r, by simp [findRecord, hak, h1],
                      by simp [markFirstMatch, hm, findRecord, hak, h2]⟩

/-- The webhook never removes a record. -/
theorem webhook_preserves_presence (sv : Bool) (et cust : String)
    (disk : Store) (k : String) (hk : (findRecord disk k).isSome) :
    (findRecord (stripe_webhook sv et cust disk).2 k).isSome := by
  unfold stripe_webhook
  by_cases hsv : sv
  · by_cases het : et = "checkout.session.completed"
    · simp only [hsv, het, if_true, save_data, load_data]
      rcases markFirstMatch_find cust disk k with h | ⟨r, _, h2⟩
      · rw [h]; exact hk
      · rw [h2]; rfl
    · simp [hsv, het, hk]
  · simp [hsv, hk]

/-- The webhook never changes a record's `stripe_customer_id`. -/
theorem webhook_preserves_cid (sv : Bool) (et cust : String)
    (disk : Store) (k : String) :
    (findRecord (stripe_webhook sv et cust disk).2 k).map
        (fun r => r.stripe_customer_id)
      = (findRecord disk k).map (fun r => r.stripe_customer_id) := by
  unfold stripe_webhook
  by_cases hsv : sv
  · by_cases het : et = "checkout.session.completed"
    · simp only [hsv, het, if_true, save_data, load_data]
      rcases markFirstMatch_find cust disk k with h | ⟨r, h1, h2⟩
      · rw [h]
      · rw [h1, h2]
        rfl
    · simp [hsv, het]
  · simp [hsv]

/-- `_create_stripe_session` never removes a record. -/
theorem create_preserves_presence (a b : String) (disk : Store) (u k : String)
    (hk : (findRecord disk k).isSome) :
    (findRecord (create_stripe_session a b disk u).1 k).isSome := by
  rw [create_session_find]
  by_cases hku : k = u
  · subst hku; simp
  · simp [hku, hk]

/-- `_create_stripe_session` never changes an already-stored
`stripe_customer_id`. -/
theorem create_preserves_existing_cid (a b : String) (disk : Store)
    (u k cid : String)
    (h : (findRecord disk k).map (fun r => r.stripe_customer_id)
          = some (some cid)) :
    (findRecord (create_stripe_session a b disk u).1 k).map
        (fun r => r.stripe_customer_id) = some (some cid) := by
  rw [create_session_find]
  by_cases hku : k = u
  · subst hku
    cases hf : findRecord disk k with
    | none => rw [hf] at h; cases h
    | some r =>
        rw [hf] at h
        have h2 : r.stripe_customer_id = some cid := by simpa using h
        simp [hf, h2]
  · simp [hku, h]

/-- When the stored record already carries a `stripe_customer_id`,
`_create_stripe_session` performs no write at all. -/
theorem create_no_write_when_cid (a b : String) (disk : Store) (u : String)
    (r : UserRecord) (c : String)
    (h1 : findRecord disk u = some r) (h2 : r.stripe_customer_id = some c) :
    (create_stripe_session a b disk u).1 = disk := by
  simp [create_stripe_session, load_data, save_data, h1, h2]

/-- The disk after an `upload` request is either the disk before, or the
disk `_create_stripe_session` left for the requesting user: the gate may
assign a customer id, and the usage recording persists nothing new. -/
theorem upload_store_cases (a b : String) (fv : Bool) (n : Nat)
    (disk : Store) (ou : Option String) :
    (upload a b fv n disk ou).2 = disk ∨
    ∃ u3, (upload a b fv n disk ou).2 = (create_stripe_session a b disk u3).1 := by
  cases ou with
  | none => exact Or.inl rfl
  | some u3 =>
      cases hc : checkAndConsume a b disk u3 with
      | mk res d1 =>
          have hd1 : d1 = disk ∨ d1 = (create_stripe_session a b disk u3).1 := by
            have h := gate_store_cases a b disk u3
            rw [hc] at h; exact h
          cases res with
          | keyError key =>
              simp only [upload, hc]
              exact hd1.imp id (fun h => ⟨u3, h⟩)
          | quotaExceeded url =>
              simp only [upload, hc]
              exact hd1.imp id (fun h => ⟨u3, h⟩)
          | allowed =>
              have hd : d1 = disk := by
                have h := gate_allowed_store a b disk u3 (by rw [hc])
                rw [hc] at h; exact h
              subst hd
              simp only [upload, hc]
              by_cases hfv : fv
              · by_cases hn : n = 0
                · simp [hfv, hn]
                · cases hi : increment_usage d1 u3 n with
                  | error e => simp [hfv, hn, hi]
                  | ok d2 =>
                      have : d2 = d1 := increment_usage_ok_eq d1 d2 u3 n hi
                      subst this
                      simp [hfv, hn, hi]
              · simp [hfv]

/-- C4 counterexample: for a user over the free limit, not subscribed and
without a stored customer id, the gate check alone changes the persisted
record set — `_create_stripe_session` writes the newly assigned customer
id — so the gate is not read-only with respect to persisted state. -/
theorem c4_counterexample :
    (checkAndConsume "cus_1" "https://pay.example"
        [("u@x.com", { used := some 3, subscribed := some false,
                       stripe_customer_id := none })] "u@x.com").2
      ≠ [("u@x.com", { used := some 3, subscribed := some false,
                       stripe_customer_id := none })] := by decide

/-- C4 (amended): the gate check never changes any record's `used` or
`subscribed` field — in particular it never increments `used` — and on
the `allowed` path it leaves the persisted store fully unchanged; the one
write it can perform, on the quota-exceeded path, is assigning a billing
account reference to the user's record. -/
theorem c4_gate_preserves_usage_and_subscription
    (newCustomerId sessionUrl : String) (disk : Store) (uid k : String) :
    ((findRecord (checkAndConsume newCustomerId sessionUrl disk uid).2 k).map
        (fun r => (r.used, r.subscribed))
      = (findRecord disk k).map (fun r => (r.used, r.subscribed))) ∧
    ((checkAndConsume newCustomerId sessionUrl disk uid).1 = GateResult.allowed →
      (checkAndConsume newCustomerId sessionUrl disk uid).2 = disk) :=
  ⟨gate_find_view newCustomerId sessionUrl disk uid k,
   gate_allowed_store newCustomerId sessionUrl disk uid⟩

/-- Witness for the amended C4 on the store of the counterexample: the
store changes, but the `used`/`subscribed` view of every record does
not. -/
theorem c4_witness :
    ((findRecord (checkAndConsume "cus_1" "https://pay.example"
        [("u@x.com", { used := some 3, subscribed := some false,
                       stripe_customer_id := none })] "u@x.com").2 "u@x.com").map
        (fun r => (r.used, r.subscribed))
      = (findRecord
          [("u@x.com", { used := some 3, subscribed := some false,
                         stripe_customer_id := none })] "u@x.com").map
        (fun r => (r.used, r.subscribed))) ∧
    ((checkAndConsume "cus_1" "https://pay.example"
        [("u@x.com", { used := some 3, subscribed := some false,
                       stripe_customer_id := none })] "u@x.com").1
        = GateResult.allowed →
      (checkAndConsume "cus_1" "https://pay.example"
        [("u@x.com", { used := some 3, subscribed := some false,
                       stripe_customer_id := none })] "u@x.com").2
        = [("u@x.com", { used := some 3, subscribed := some false,
                         stripe_customer_id := none })]) :=
  c4_gate_preserves_usage_and_subscription "cus_1" "https://pay.example"
    [("u@x.com", { used := some 3, subscribed := some false,
                   stripe_customer_id := none })] "u@x.com" "u@x.com"

/-- C5 counterexample: starting from an empty store, a first entitlement
check for `a@x.com` persists no record at all, and a first
checkout-session creation persists a record that lacks the `used = 0`
and `subscribed = false` defaults the claim promises. -/
theorem c5_counterexample :
    findRecord (checkAndConsume "cus_1" "https://pay.example" [] "a@x.com").2
        "a@x.com" = none ∧
    findRecord (create_stripe_session "cus_1" "https://pay.example" []
        "a@x.com").1 "a@x.com"
      = some { used := none, subscribed := none,
               stripe_customer_id := some "cus_1" } := ⟨rfl, rfl⟩

/-- C5 (amended): a first entitlement check for an unseen identity
persists nothing — it merely reads an in-memory default view with
`used = 0` and `subscribed = false` — while a first checkout-session
creation persists a record holding only the billing account reference;
and no operation of the component ever deletes a persisted record. -/
theorem c5_lazy_record_lifecycle
    (newCustomerId sessionUrl cust eventType : String)
    (signatureValid fileValid : Bool) (n : Nat)
    (disk : Store) (uid uid2 k : String) (ouid : Option String)
    (hnew : findRecord disk uid = none)
    (hk : (findRecord disk k).isSome) :
    ((checkAndConsume newCustomerId sessionUrl disk uid).2 = disk ∧
     (get_user_record disk uid).used = some 0 ∧
     (get_user_record disk uid).subscribed = some false ∧
     findRecord (create_stripe_session newCustomerId sessionUrl disk uid).1 uid
       = some { used := none, subscribed := none,
                stripe_customer_id := some newCustomerId }) ∧
    ((findRecord (checkAndConsume newCustomerId sessionUrl disk uid2).2 k).isSome ∧
     (findRecord (create_stripe_session newCustomerId sessionUrl disk uid2).1 k).isSome ∧
     (findRecord (stripe_webhook signatureValid eventType cust disk).2 k).isSome ∧
     (findRecord (upload newCustomerId sessionUrl fileValid n disk ouid).2 k).isSome ∧
     ∀ d2, increment_usage disk uid2 n = Except.ok d2 →
        (findRecord d2 k).isSome) := by
  refine ⟨⟨?_, ?_, ?_, ?_⟩, ?_, ?_, ?_, ?_, ?_⟩
  · rw [gate_unseen newCustomerId sessionUrl disk uid hnew]
  · simp [get_user_record, load_data, hnew, defaultRecord]
  · simp [get_user_record, load_data, hnew, defaultRecord]
  · rw [create_session_find]
    simp [hnew]
  · rcases gate_store_cases newCustomerId sessionUrl disk uid2 with h | h
    · rw [h]; exact hk
    · rw [h]; exact create_preserves_presence _ _ _ _ _ hk
  · exact create_preserves_presence _ _ _ _ _ hk
  · exact webhook_preserves_presence _ _ _ _ _ hk
  · rcases upload_store_cases newCustomerId sessionUrl fileValid n disk ouid
      with h | ⟨u3, h⟩
    · rw [h]; exact hk
    · rw [h]; exact create_preserves_presence _ _ _ _ _ hk
  · intro d2 h
    rw [increment_usage_ok_eq disk d2 uid2 n h]
    exact hk

/-- Witness for the amended C5 with unseen user `a` and stored user `b`. -/
theorem c5_witness :
    ((checkAndConsume "n" "s"
        [("b", { used := some 1, subscribed := some false,
                 stripe_customer_id := some "c" })] "a").2
        = [("b", { used := some 1, subscribed := some false,
                   stripe_customer_id := some "c" })] ∧
     (get_user_record
        [("b", { used := some 1, subscribed := some false,
                 stripe_customer_id := some "c" })] "a").used = some 0 ∧
     (get_user_record
        [("b", { used := some 1, subscribed := some false,
                 stripe_customer_id := some "c" })] "a").subscribed = some false ∧
     findRecord (create_stripe_session "n" "s"
          [("b", { used := some 1, subscribed := some false,
                   stripe_customer_id := some "c" })] "a").1 "a"
       = some { used := none, subscribed := none,
                stripe_customer_id := some "n" }) ∧
    ((findRecord (checkAndConsume "n" "s"
          [("b", { used := some 1, subscribed := some false,
                   stripe_customer_id := some "c" })] "b").2 "b").isSome ∧
     (findRecord (create_stripe_session "n" "s"
          [("b", { used := some 1, subscribed := some false,
                   stripe_customer_id := some "c" })] "b").1 "b").isSome ∧
     (findRecord (stripe_webhook true "checkout.session.completed" "c"
          [("b", { used := some 1, subscribed := some false,
                   stripe_customer_id := some "c" })]).2 "b").isSome ∧
     (findRecord (upload "n" "s" true 1
          [("b", { used := some 1, subscribed := some false,
                   stripe_customer_id := some "c" })] (some "b")).2 "b").isSome ∧
     ∀ d2, increment_usage
        [("b", { used := some 1, subscribed := some false,
                 stripe_customer_id := some "c" })] "b" 1 = Except.ok d2 →
        (findRecord d2 "b").isSome) :=
  c5_lazy_record_lifecycle "n" "s" "c" "checkout.session.completed" true true 1
    [("b", { used := some 1, subscribed := some false,
             stripe_customer_id := some "c" })]
    "a" "b" "b" (some "b") (by decide) (by decide)

/-- C6: the billing account reference is write-once.  For a previously
unseen user, `_create_stripe_session` stores the freshly created customer
id, and a second call finds it and performs no write at all, so both
calls leave the same stored reference.  Moreover no operation of the
component — gate check, checkout-session creation for any user, webhook,
upload, usage recording — changes an already-stored customer id. -/
theorem c6_billing_id_write_once
    (cidA urlA cidB urlB a b cust eventType : String)
    (signatureValid fileValid : Bool) (n : Nat)
    (disk : Store) (uid uid2 k cid : String) (ouid : Option String)
    (hnew : findRecord disk uid = none)
    (hcid : (findRecord disk k).map (fun r => r.stripe_customer_id)
              = some (some cid)) :
    ((findRecord (create_stripe_session cidA urlA disk uid).1 uid).map
        (fun r => r.stripe_customer_id) = some (some cidA) ∧
     (create_stripe_session cidB urlB
        (create_stripe_session cidA urlA disk uid).1 uid).1
       = (create_stripe_session cidA urlA disk uid).1) ∧
    ((findRecord (checkAndConsume a b disk uid2).2 k).map
        (fun r => r.stripe_customer_id) = some (some cid) ∧
     (findRecord (create_stripe_session a b disk uid2).1 k).map
        (fun r => r.stripe_customer_id) = some (some cid) ∧
     (findRecord (stripe_webhook signatureValid eventType cust disk).2 k).map
        (fun r => r.stripe_customer_id) = some (some cid) ∧
     (findRecord (upload a b fileValid n disk ouid).2 k).map
        (fun r => r.stripe_customer_id) = some (some cid) ∧
     ∀ d2, increment_usage disk uid2 n = Except.ok d2 →
        (findRecord d2 k).map (fun r => r.stripe_customer_id)
          = some (some cid)) := by
  have hrec : findRecord (create_stripe_session cidA urlA disk uid).1 uid
      = some { used := none, subscribed := none,
               stripe_customer_id := some cidA } := by
    rw [create_session_find]
    simp [hnew]
  refine ⟨⟨?_, ?_⟩, ?_, ?_, ?_, ?_, ?_⟩
  · rw [hrec]; rfl
  · exact create_no_write_when_cid cidB urlB _ uid _ cidA hrec rfl
  · rcases gate_store_cases a b disk uid2 with h | h
    · rw [h]; exact hcid
    · rw [h]; exact create_preserves_existing_cid a b disk uid2 k cid hcid
  · exact create_preserves_existing_cid a b disk uid2 k cid hcid
  · rw [webhook_preserves_cid]; exact hcid
  · rcases upload_store_cases a b fileValid n disk ouid with h | ⟨u3, h⟩
    · rw [h]; exact hcid
    · rw [h]; exact create_preserves_existing_cid a b disk u3 k cid hcid
  · intro d2 h
    rw [increment_usage_ok_eq disk d2 uid2 n h]
    exact hcid

/-- Witness for C6 with unseen user `a` and stored user `b` holding
customer id `c`. -/
theorem c6_witness :
    ((findRecord (create_stripe_session "nA" "sA"
          [("b", { used := some 1, subscribed := some false,
                   stripe_customer_id := some "c" })] "a").1 "a").map
        (fun r => r.stripe_customer_id) = some (some "nA") ∧
     (create_stripe_session "nB" "sB"
        (create_stripe_session "nA" "sA"
          [("b", { used := some 1, subscribed := some false,
                   stripe_customer_id := some "c" })] "a").1 "a").1
       = (create_stripe_session "nA" "sA"
          [("b", { used := some 1, subscribed := some false,
                   stripe_customer_id := some "c" })] "a").1) ∧
    ((findRecord (checkAndConsume "x" "sx"
          [("b", { used := some 1, subscribed := some false,
                   stripe_customer_id := some "c" })] "b").2 "b").map
        (fun r => r.stripe_customer_id) = some (some "c") ∧
     (findRecord (create_stripe_session "x" "sx"
          [("b", { used := some 1, subscribed := some false,
                   stripe_customer_id := some "c" })] "b").1 "b").map
        (fun r => r.stripe_customer_id) = some (some "c") ∧
     (findRecord (stripe_webhook true "checkout.session.completed" "c"
          [("b", { used := some 1, subscribed := some false,
                   stripe_customer_id := some "c" })]).2 "b").map
        (fun r => r.stripe_customer_id) = some (some "c") ∧
     (findRecord (upload "x" "sx" true 1
          [("b", { used := some 1, subscribed := some false,
                   stripe_customer_id := some "c" })] (some "b")).2 "b").map
        (fun r => r.stripe_customer_id) = some (some "c") ∧
     ∀ d2, increment_usage
        [("b", { used := some 1, subscribed := some false,
                 stripe_customer_id := some "c" })] "b" 1 = Except.ok d2 →
        (findRecord d2 "b").map (fun r => r.stripe_customer_id)
          = some (some "c")) :=
  c6_billing_id_write_once "nA" "sA" "nB" "sB" "x" "sx" "c"
    "checkout.session.completed" true true 1
    [("b", { used := some 1, subscribed := some false,
             stripe_customer_id := some "c" })]
    "a" "b" "b" "c" (some "b") (by decide) (by decide)
